import Mathlib

/-!
# Particle animation and theme interpolation of `script.js`

A shallow embedding of the animation core of `src/script.js`: the theme table,
the `IntersectionObserver` callback that selects a theme, the `mousemove`
handler and the `animate` render-loop step.

Numbers are exact rationals (the decimal literals of the source are read as the
rationals they denote; the rounding of the source's double arithmetic is not
modelled, so every equality below is one of exact arithmetic).  `Math.sin` is a library function and is passed in as the
parameter `msin`; the clock reading `clock.getElapsedTime()` is passed in as
`elapsedTime`.  Drawing (`renderer.render`) and the rescheduling call
`requestAnimationFrame(animate)` have no effect on the modelled state.
-/

namespace Mandm

/-! ## Data model -/

/-- The four glyph textures built at start-up by `createShapeTexture`
(script.js, lines 47-50). -/
inductive Texture where
  | textureHeart
  | textureStar
  | textureCloud
  | textureOrb
  deriving DecidableEq, Repr

/-- A `THREE.Color`: three channels. -/
structure Color where
  r : ℚ
  g : ℚ
  b : ℚ
  deriving DecidableEq

/-- Channel decode of `THREE.Color.setHex(hex)` (also what `new THREE.Color(hex)`
does): `r = (hex >> 16 & 255) / 255`, `g = (hex >> 8 & 255) / 255`,
`b = (hex & 255) / 255`.  The colour-space conversion three.js may apply
afterwards is a fixed function of the decoded colour and is not modelled. -/
def Color.setHex (hex : Nat) : Color :=
  { r := ((hex >>> 16 &&& 255 : Nat) : ℚ) / 255
    g := ((hex >>> 8 &&& 255 : Nat) : ℚ) / 255
    b := ((hex &&& 255 : Nat) : ℚ) / 255 }

/-- The method `THREE.Color.lerp(color, alpha)`: each channel moves by
`(color.c - this.c) * alpha`. -/
def Color.lerp (c color : Color) (alpha : ℚ) : Color :=
  { r := c.r + (color.r - c.r) * alpha
    g := c.g + (color.g - c.g) * alpha
    b := c.b + (color.b - c.b) * alpha }

/-- One entry of the `themes` array (script.js, lines 74-110). -/
structure Theme where
  color : Nat
  map : Texture
  size : ℚ
  drift : ℚ
  rot : ℚ
  deriving DecidableEq

/-- The `themes` array, in source order. -/
def themes : List Theme :=
  [ { color := 0xffaaaa, map := .textureHeart, size := 2 / 10, drift := 2 / 10, rot := 5 / 10000 },
    { color := 0xffd700, map := .textureStar, size := 15 / 100, drift := 2 / 100, rot := 2 / 10000 },
    { color := 0xe0ffff, map := .textureCloud, size := 3 / 10, drift := -(5 / 100), rot := 1 / 10000 },
    { color := 0xffae42, map := .textureOrb, size := 1 / 10, drift := 0, rot := 1 / 1000 },
    { color := 0xff0000, map := .textureHeart, size := 3 / 10, drift := 5 / 10, rot := 2 / 1000 } ]

/-- The array read `themes[i]` for a JavaScript integer `i`: `none` stands for
`undefined` (negative or past the end). -/
def themeAt (i : Int) : Option Theme :=
  if 0 ≤ i then themes[i.toNat]? else none

/-- The fields of the `PointsMaterial` that the script writes after
construction.  `version` is the counter that the setter
`material.needsUpdate = true` increments. -/
structure PointsMaterial where
  size : ℚ
  map : Texture
  color : Color
  version : Nat
  deriving DecidableEq

/-- The fields of `particlesMesh` that the script writes: two rotation angles
and two position coordinates. -/
structure Points where
  rotationX : ℚ
  rotationY : ℚ
  positionX : ℚ
  positionY : ℚ
  deriving DecidableEq

/-- A DOM element, by identity. -/
abbrev Elem := Nat

/-- The module-level mutable state of the animation core, together with the two
DOM effects of its handlers: the elements carrying the class `visible` and the
last `left`/`top` style written to the cursor follower. -/
structure State where
  material : PointsMaterial
  particlesMesh : Points
  targetColor : Color
  targetSize : ℚ
  driftSpeedY : ℚ
  currentThemeIndex : Int
  mouseX : ℚ
  mouseY : ℚ
  visible : List Elem
  cursorStyle : Option (ℚ × ℚ)
  deriving DecidableEq

/-- The state after the top-level statements of the script have run and before
any callback or frame (script.js, lines 53-71, 116, 147-148). -/
def initialState : State :=
  { material :=
      { size := 2 / 10, map := .textureHeart, color := Color.setHex 0xffaaaa, version := 0 }
    particlesMesh := { rotationX := 0, rotationY := 0, positionX := 0, positionY := 0 }
    targetColor := Color.setHex 0xffaaaa
    targetSize := 2 / 10
    driftSpeedY := 5 / 100
    currentThemeIndex := 0
    mouseX := 0
    mouseY := 0
    visible := []
    cursorStyle := none }

/-! ## The visibility observer -/

/-- One `IntersectionObserverEntry`, as far as the callback reads it. -/
structure Entry where
  isIntersecting : Bool
  target : Elem
  deriving DecidableEq

/-- Search of `Array.prototype.indexOf` from position `k`. -/
def indexOfFrom (x : Elem) : List Elem → Int → Int
  | [], _ => -1
  | y :: ys, k => if y = x then k else indexOfFrom x ys (k + 1)

/-- The call `Array.from(sections).indexOf(target)`: the first position of
`target`, or `-1`. -/
def indexOf (sections : List Elem) (target : Elem) : Int :=
  indexOfFrom target sections 0

/-- The call `classList.add('visible')`, on the set of elements carrying the class. -/
def classListAdd (visible : List Elem) (e : Elem) : List Elem :=
  if e ∈ visible then visible else visible ++ [e]

/-- Body of the `entries.forEach` callback (script.js, lines 119-139). -/
def observerEntry (sections : List Elem) (s : State) (entry : Entry) : State :=
  if entry.isIntersecting then
    let s1 := { s with visible := classListAdd s.visible entry.target }
    let index := indexOf sections entry.target
    if index ≠ -1 ∧ index < (themes.length : Int) then
      let s2 := { s1 with currentThemeIndex := index }
      match themeAt index with
      | none => s2
      | some theme =>
        { s2 with
          targetColor := Color.setHex theme.color
          targetSize := theme.size
          driftSpeedY := theme.drift
          material := { s2.material with map := theme.map, version := s2.material.version + 1 } }
    else s1
  else s

/-- The observer callback: `entries.forEach(...)`, in order. -/
def observer (sections : List Elem) (s : State) (entries : List Entry) : State :=
  entries.foldl (observerEntry sections) s

/-! ## Pointer parallax -/

/-- The `mousemove` listener (script.js, lines 150-163).  `hasCursor` tells
whether `document.getElementById('cursor-follower')` found an element. -/
def mousemove (clientX clientY : ℚ) (hasCursor : Bool) (s : State) : State :=
  let s1 := { s with mouseX := clientX, mouseY := clientY }
  let s2 := if hasCursor then { s1 with cursorStyle := some (s1.mouseX, s1.mouseY) } else s1
  { s2 with
    particlesMesh :=
      { s2.particlesMesh with
        rotationX := s2.mouseY * (5 / 100000)
        rotationY := s2.mouseX * (5 / 100000) } }

/-! ## The render loop -/

/-- One call of `animate` (script.js, lines 168-191).  The result is `.ok` with
the state at the end of the call, or `.error` with the state reached when the
read `themes[currentThemeIndex].rot` throws because the theme is `undefined`
(the colour and size were already blended by then). -/
def animate (msin : ℚ → ℚ) (elapsedTime : ℚ) (s : State) : Except State State :=
  let s1 := { s with material := { s.material with color := s.material.color.lerp s.targetColor (5 / 100) } }
  let s2 := { s1 with
    material := { s1.material with size := s1.material.size + (s1.targetSize - s1.material.size) * (5 / 100) } }
  match themeAt s2.currentThemeIndex with
  | none => .error s2
  | some theme =>
    let s3 := { s2 with
      particlesMesh := { s2.particlesMesh with rotationY := s2.particlesMesh.rotationY + theme.rot } }
    let s4 := { s3 with
      particlesMesh :=
        { s3.particlesMesh with
          positionY := s3.particlesMesh.positionY + msin elapsedTime * (1 / 1000) * s3.driftSpeedY } }
    if s4.currentThemeIndex = 2 then
      .ok { s4 with
        particlesMesh := { s4.particlesMesh with positionX := msin (elapsedTime * (5 / 10)) * (2 / 10) } }
    else .ok s4

/-- The state a call of `animate` leaves behind, whether it returned or threw. -/
def stateAfter : Except State State → State
  | .ok s => s
  | .error s => s

/-- Successive frames: one call of `animate` per clock reading in
`elapsedTimes`.  The next frame is requested at the top of `animate`, so the
loop goes on whatever the previous call did. -/
def runFrames (msin : ℚ → ℚ) (elapsedTimes : List ℚ) (s : State) : State :=
  elapsedTimes.foldl (fun st t => stateAfter (animate msin t st)) s

/-- The state in which the script hands control back to the browser: the top-level
statements followed by the call `animate()` of line 193, which runs one frame at
once, at clock reading `t0`.  Callbacks (observer, pointer, later frames) run only
after it, so this is the first state any of them can see. -/
def scriptLoaded (msin : ℚ → ℚ) (t0 : ℚ) : State :=
  stateAfter (animate msin t0 initialState)

/-! ## The event system -/

/-- What the browser can deliver to the script: a batch of visibility entries,
a pointer move, or a display frame. -/
inductive Event where
  | visibility (entries : List Entry)
  | pointer (clientX clientY : ℚ) (hasCursor : Bool)
  | frame (elapsedTime : ℚ)

/-- Effect of one event on the state. -/
def step (sections : List Elem) (msin : ℚ → ℚ) (s : State) : Event → State
  | .visibility entries => observer sections s entries
  | .pointer x y c => mousemove x y c s
  | .frame t => stateAfter (animate msin t s)

/-- Effect of a sequence of events, in order of delivery. -/
def run (sections : List Elem) (msin : ℚ → ℚ) (s : State) (events : List Event) : State :=
  events.foldl (step sections msin) s

/-- The states reachable from the initial state.  The states the running program
goes through start at `scriptLoaded` and are among these. -/
def Reachable (sections : List Elem) (msin : ℚ → ℚ) (s : State) : Prop :=
  ∃ events : List Event, run sections msin initialState events = s

/-! ## Observation used to state convergence -/

/-- The largest gap between a live value (the three colour channels and the
size of the material) and its target. -/
def distanceToTarget (s : State) : ℚ :=
  max (max |s.targetColor.r - s.material.color.r| |s.targetColor.g - s.material.color.g|)
    (max |s.targetColor.b - s.material.color.b| |s.targetSize - s.material.size|)

/-! ## Auxiliary facts: theme table and observer -/

theorem setHex_eq (hex : Nat) : Color.setHex hex =
    ⟨((hex / 65536 % 256 : Nat) : ℚ) / 255, ((hex / 256 % 256 : Nat) : ℚ) / 255,
      ((hex % 256 : Nat) : ℚ) / 255⟩ := by
  have h : ∀ n : Nat, n &&& 255 = n % 256 := fun n => Nat.and_pow_two_sub_one_eq_mod n 8
  simp only [Color.setHex, h, Nat.shiftRight_eq_div_pow]

theorem themeAt_defined {i : Int} (h0 : 0 ≤ i) (h4 : i ≤ 4) : ∃ theme, themeAt i = some theme := by
  interval_cases i <;> exact ⟨_, rfl⟩

theorem themeAt_bounds {i : Int} {theme : Theme} (h : themeAt i = some theme) : 0 ≤ i ∧ i ≤ 4 := by
  unfold themeAt at h
  split at h
  · rename_i h0
    obtain ⟨hlt, -⟩ := List.getElem?_eq_some.mp h
    simp [themes] at hlt
    omega
  · cases h

theorem indexOfFrom_range (x : Elem) (xs : List Elem) (k : Int) :
    indexOfFrom x xs k = -1 ∨ k ≤ indexOfFrom x xs k := by
  induction xs generalizing k with
  | nil => left; rfl
  | cons y ys ih =>
    unfold indexOfFrom
    split
    · right; exact le_refl k
    · rcases ih (k + 1) with h | h
      · left; exact h
      · right; omega

theorem indexOf_range (sections : List Elem) (x : Elem) :
    indexOf sections x = -1 ∨ 0 ≤ indexOf sections x :=
  indexOfFrom_range x sections 0

theorem observerEntry_skip (sections : List Elem) (s : State) (e : Entry)
    (h : e.isIntersecting = false) : observerEntry sections s e = s := by
  simp [observerEntry, h]

theorem observerEntry_valid (sections : List Elem) (s : State) (e : Entry) (theme : Theme)
    (h : e.isIntersecting = true) (ht : themeAt (indexOf sections e.target) = some theme) :
    observerEntry sections s e =
      { s with
        visible := classListAdd s.visible e.target
        currentThemeIndex := indexOf sections e.target
        targetColor := Color.setHex theme.color
        targetSize := theme.size
        driftSpeedY := theme.drift
        material := { s.material with map := theme.map, version := s.material.version + 1 } } := by
  obtain ⟨h0, h4⟩ := themeAt_bounds ht
  have hg : indexOf sections e.target ≠ -1 ∧ indexOf sections e.target < (themes.length : Int) := by
    simp [themes]; omega
  unfold observerEntry
  rw [if_pos h]
  dsimp only
  rw [if_pos hg, ht]

theorem observerEntry_invalid (sections : List Elem) (s : State) (e : Entry)
    (h : e.isIntersecting = true)
    (hbad : indexOf sections e.target = -1 ∨ 5 ≤ indexOf sections e.target) :
    observerEntry sections s e = { s with visible := classListAdd s.visible e.target } := by
  have hg : ¬ (indexOf sections e.target ≠ -1 ∧ indexOf sections e.target < (themes.length : Int)) := by
    simp [themes]; omega
  unfold observerEntry
  rw [if_pos h]
  dsimp only
  rw [if_neg hg]

/-! ## Auxiliary facts: render loop -/

theorem runFrames_cons (msin : ℚ → ℚ) (t : ℚ) (ts : List ℚ) (s : State) :
    runFrames msin (t :: ts) s = runFrames msin ts (stateAfter (animate msin t s)) := rfl

theorem runFrames_append (msin : ℚ → ℚ) (ts us : List ℚ) (s : State) :
    runFrames msin (ts ++ us) s = runFrames msin us (runFrames msin ts s) := by
  simp [runFrames, List.foldl_append]

theorem animate_material (msin : ℚ → ℚ) (t : ℚ) (s : State) :
    (stateAfter (animate msin t s)).material =
      { s.material with
        color := s.material.color.lerp s.targetColor (5 / 100)
        size := s.material.size + (s.targetSize - s.material.size) * (5 / 100) } := by
  unfold animate
  dsimp only
  split
  · rfl
  · split <;> rfl

theorem animate_frame (msin : ℚ → ℚ) (t : ℚ) (s : State) :
    (stateAfter (animate msin t s)).targetColor = s.targetColor ∧
      (stateAfter (animate msin t s)).targetSize = s.targetSize ∧
      (stateAfter (animate msin t s)).driftSpeedY = s.driftSpeedY ∧
      (stateAfter (animate msin t s)).currentThemeIndex = s.currentThemeIndex := by
  unfold animate
  dsimp only
  split
  · exact ⟨rfl, rfl, rfl, rfl⟩
  · split <;> exact ⟨rfl, rfl, rfl, rfl⟩

theorem animate_ok (msin : ℚ → ℚ) (t : ℚ) (s : State) (theme : Theme)
    (ht : themeAt s.currentThemeIndex = some theme) :
    ∃ s', animate msin t s = .ok s' ∧
      s'.particlesMesh.rotationY = s.particlesMesh.rotationY + theme.rot ∧
      s'.particlesMesh.rotationX = s.particlesMesh.rotationX ∧
      s'.particlesMesh.positionY
        = s.particlesMesh.positionY + msin t * (1 / 1000) * s.driftSpeedY ∧
      s'.particlesMesh.positionX
        = (if s.currentThemeIndex = 2 then msin (t * (5 / 10)) * (2 / 10)
            else s.particlesMesh.positionX) := by
  unfold animate
  dsimp only
  rw [ht]
  dsimp only
  by_cases h2 : s.currentThemeIndex = 2
  · rw [if_pos h2, if_pos h2]; exact ⟨_, rfl, rfl, rfl, rfl, rfl⟩
  · rw [if_neg h2, if_neg h2]; exact ⟨_, rfl, rfl, rfl, rfl, rfl⟩

theorem runFrames_frame (msin : ℚ → ℚ) (ts : List ℚ) (s : State) :
    (runFrames msin ts s).targetColor = s.targetColor ∧
      (runFrames msin ts s).targetSize = s.targetSize ∧
      (runFrames msin ts s).driftSpeedY = s.driftSpeedY ∧
      (runFrames msin ts s).currentThemeIndex = s.currentThemeIndex := by
  induction ts generalizing s with
  | nil => exact ⟨rfl, rfl, rfl, rfl⟩
  | cons t ts ih =>
    rw [runFrames_cons]
    obtain ⟨h1, h2, h3, h4⟩ := ih (stateAfter (animate msin t s))
    obtain ⟨k1, k2, k3, k4⟩ := animate_frame msin t s
    exact ⟨h1.trans k1, h2.trans k2, h3.trans k3, h4.trans k4⟩

theorem runFrames_closed_form (msin : ℚ → ℚ) (ts : List ℚ) (s : State) :
    (runFrames msin ts s).material.color.r
        = s.targetColor.r - (s.targetColor.r - s.material.color.r) * (95 / 100) ^ ts.length ∧
      (runFrames msin ts s).material.color.g
        = s.targetColor.g - (s.targetColor.g - s.material.color.g) * (95 / 100) ^ ts.length ∧
      (runFrames msin ts s).material.color.b
        = s.targetColor.b - (s.targetColor.b - s.material.color.b) * (95 / 100) ^ ts.length ∧
      (runFrames msin ts s).material.size
        = s.targetSize - (s.targetSize - s.material.size) * (95 / 100) ^ ts.length := by
  induction ts generalizing s with
  | nil => simp [runFrames]
  | cons t ts ih =>
    rw [runFrames_cons]
    obtain ⟨h1, h2, h3, h4⟩ := ih (stateAfter (animate msin t s))
    obtain ⟨k1, k2, -, -⟩ := animate_frame msin t s
    rw [h1, h2, h3, h4, k1, k2, animate_material]
    simp only [Color.lerp, List.length_cons, pow_succ]
    refine ⟨?_, ?_, ?_, ?_⟩ <;> ring

theorem animate_distance (msin : ℚ → ℚ) (t : ℚ) (s : State) :
    distanceToTarget (stateAfter (animate msin t s)) = distanceToTarget s * (95 / 100) := by
  obtain ⟨k1, k2, -, -⟩ := animate_frame msin t s
  have q : (0 : ℚ) ≤ 95 / 100 := by norm_num
  have key : ∀ C c : ℚ, |C - (c + (C - c) * (5 / 100))| = |C - c| * (95 / 100) := by
    intro C c
    rw [show C - (c + (C - c) * (5 / 100)) = (C - c) * (95 / 100) by ring, abs_mul, abs_of_nonneg q]
  unfold distanceToTarget
  rw [k1, k2, animate_material]
  simp only [Color.lerp, key]
  rw [← max_mul_of_nonneg _ _ q, ← max_mul_of_nonneg _ _ q, ← max_mul_of_nonneg _ _ q]

theorem runFrames_distance (msin : ℚ → ℚ) (ts : List ℚ) (s : State) :
    distanceToTarget (runFrames msin ts s) = distanceToTarget s * (95 / 100) ^ ts.length := by
  induction ts generalizing s with
  | nil => simp [runFrames]
  | cons t ts ih =>
    rw [runFrames_cons, ih, animate_distance, List.length_cons, pow_succ]
    ring

theorem distanceToTarget_nonneg (s : State) : 0 ≤ distanceToTarget s :=
  le_max_of_le_left (le_max_of_le_left (abs_nonneg _))

theorem runFrames_rotation (msin : ℚ → ℚ) (ts : List ℚ) (s : State) (theme : Theme)
    (ht : themeAt s.currentThemeIndex = some theme) :
    (runFrames msin ts s).particlesMesh.rotationY
      = s.particlesMesh.rotationY + (ts.length : ℚ) * theme.rot := by
  induction ts generalizing s with
  | nil => simp [runFrames]
  | cons t ts ih =>
    obtain ⟨s', hs', hrot, -⟩ := animate_ok msin t s theme ht
    have hidx : s'.currentThemeIndex = s.currentThemeIndex := by
      have := (animate_frame msin t s).2.2.2
      rwa [hs'] at this
    rw [runFrames_cons, hs']
    show (runFrames msin ts s').particlesMesh.rotationY = _
    rw [ih s' (by rw [hidx]; exact ht), hrot, List.length_cons]
    push_cast
    ring

/-! ## Auxiliary facts: index invariant and batches -/

theorem observerEntry_index (sections : List Elem) (s : State) (e : Entry) :
    (observerEntry sections s e).currentThemeIndex = s.currentThemeIndex ∨
      (0 ≤ (observerEntry sections s e).currentThemeIndex ∧
        (observerEntry sections s e).currentThemeIndex ≤ 4) := by
  cases hvis : e.isIntersecting with
  | false => left; rw [observerEntry_skip sections s e hvis]
  | true =>
    by_cases hr : 0 ≤ indexOf sections e.target ∧ indexOf sections e.target ≤ 4
    · obtain ⟨theme, ht⟩ := themeAt_defined hr.1 hr.2
      right
      rw [observerEntry_valid sections s e theme hvis ht]
      exact hr
    · left
      have hbad : indexOf sections e.target = -1 ∨ 5 ≤ indexOf sections e.target := by
        rcases indexOf_range sections e.target with h | h
        · exact Or.inl h
        · right; omega
      rw [observerEntry_invalid sections s e hvis hbad]

theorem observer_index (sections : List Elem) (s : State) (entries : List Entry)
    (h : 0 ≤ s.currentThemeIndex ∧ s.currentThemeIndex ≤ 4) :
    0 ≤ (observer sections s entries).currentThemeIndex ∧
      (observer sections s entries).currentThemeIndex ≤ 4 := by
  induction entries generalizing s with
  | nil => exact h
  | cons e es ih =>
    show 0 ≤ (observer sections (observerEntry sections s e) es).currentThemeIndex ∧
      (observer sections (observerEntry sections s e) es).currentThemeIndex ≤ 4
    apply ih
    rcases observerEntry_index sections s e with h1 | h1
    · rw [h1]; exact h
    · exact h1

theorem mousemove_index (x y : ℚ) (c : Bool) (s : State) :
    (mousemove x y c s).currentThemeIndex = s.currentThemeIndex := by
  cases c <;> rfl

theorem step_index (sections : List Elem) (msin : ℚ → ℚ) (s : State) (ev : Event)
    (h : 0 ≤ s.currentThemeIndex ∧ s.currentThemeIndex ≤ 4) :
    0 ≤ (step sections msin s ev).currentThemeIndex ∧
      (step sections msin s ev).currentThemeIndex ≤ 4 := by
  cases ev with
  | visibility entries => exact observer_index sections s entries h
  | pointer x y c =>
    show 0 ≤ (mousemove x y c s).currentThemeIndex ∧ (mousemove x y c s).currentThemeIndex ≤ 4
    rw [mousemove_index]; exact h
  | frame t =>
    show 0 ≤ (stateAfter (animate msin t s)).currentThemeIndex ∧
      (stateAfter (animate msin t s)).currentThemeIndex ≤ 4
    rw [(animate_frame msin t s).2.2.2]; exact h

theorem run_index (sections : List Elem) (msin : ℚ → ℚ) (s : State) (events : List Event)
    (h : 0 ≤ s.currentThemeIndex ∧ s.currentThemeIndex ≤ 4) :
    0 ≤ (run sections msin s events).currentThemeIndex ∧
      (run sections msin s events).currentThemeIndex ≤ 4 := by
  induction events generalizing s with
  | nil => exact h
  | cons ev evs ih => exact ih (step sections msin s ev) (step_index sections msin s ev h)

theorem observer_append (sections : List Elem) (s : State) (es fs : List Entry) :
    observer sections s (es ++ fs) = observer sections (observer sections s es) fs := by
  simp [observer, List.foldl_append]

theorem observer_filter (sections : List Elem) (s : State) (entries : List Entry) :
    observer sections s entries
      = observer sections s (entries.filter fun e => e.isIntersecting) := by
  induction entries generalizing s with
  | nil => rfl
  | cons e es ih =>
    cases hvis : e.isIntersecting with
    | false =>
      rw [List.filter_cons_of_neg (by simp [hvis])]
      show observer sections (observerEntry sections s e) es = _
      rw [observerEntry_skip sections s e hvis]
      exact ih s
    | true =>
      rw [List.filter_cons_of_pos (by simp [hvis])]
      exact ih (observerEntry sections s e)

/-! ## Auxiliary facts: the load frame and 500 frames -/

theorem pow_500_small : ((95 : ℚ) / 100) ^ 500 ≤ 1 / 10 ^ 9 := by norm_num

theorem settle_bound (C c0 : ℚ) (h : |C - c0| ≤ 1) :
    |C - (C - c0) * (95 / 100) ^ 500 - C| ≤ 1 / 10 ^ 9 := by
  have hq : (0 : ℚ) ≤ (95 / 100) ^ 500 := by positivity
  rw [show C - (C - c0) * (95 / 100) ^ 500 - C = -((C - c0) * (95 / 100) ^ 500) by ring,
    abs_neg, abs_mul, abs_of_nonneg hq]
  calc |C - c0| * (95 / 100) ^ 500 ≤ 1 * (95 / 100) ^ 500 :=
        mul_le_mul_of_nonneg_right h hq
    _ ≤ 1 / 10 ^ 9 := by rw [one_mul]; exact pow_500_small

theorem scriptLoaded_material (msin : ℚ → ℚ) (t0 : ℚ) :
    (scriptLoaded msin t0).material = initialState.material := by
  unfold scriptLoaded
  rw [animate_material]
  simp [Color.lerp, initialState]

theorem scriptLoaded_rotationY (msin : ℚ → ℚ) (t0 : ℚ) :
    (scriptLoaded msin t0).particlesMesh.rotationY = 5 / 10000 := by
  obtain ⟨s', hs', hrot, -⟩ := animate_ok msin t0 initialState
    { color := 0xffaaaa, map := .textureHeart, size := 2 / 10, drift := 2 / 10, rot := 5 / 10000 }
    rfl
  unfold scriptLoaded
  rw [hs']
  show s'.particlesMesh.rotationY = 5 / 10000
  rw [hrot]
  show (0 : ℚ) + 5 / 10000 = 5 / 10000
  norm_num

theorem scriptLoaded_reachable (sections : List Elem) (msin : ℚ → ℚ) (t0 : ℚ) :
    Reachable sections msin (scriptLoaded msin t0) :=
  ⟨[.frame t0], rfl⟩

theorem scroll_rotation (sections : List Elem) (msin : ℚ → ℚ) (s0 : State) (entry : Entry)
    (ts : List ℚ) (hvis : entry.isIntersecting = true)
    (hidx : indexOf sections entry.target = 3) (hlen : ts.length = 500) :
    (runFrames msin ts (observer sections s0 [entry])).particlesMesh.rotationY
      = s0.particlesMesh.rotationY + 500 * (1 / 1000) := by
  have ht : themeAt (indexOf sections entry.target) = some
      { color := 0xffae42, map := .textureOrb, size := 1 / 10, drift := 0, rot := 1 / 1000 } := by
    rw [hidx]; rfl
  have hrot := runFrames_rotation msin ts (observer sections s0 [entry])
  rw [show observer sections s0 [entry] = observerEntry sections s0 entry from rfl,
    observerEntry_valid sections s0 entry _ hvis ht] at hrot ⊢
  rw [hrot _ ht, hlen]
  norm_num

theorem scroll_settles (sections : List Elem) (msin : ℚ → ℚ) (s0 : State) (entry : Entry)
    (ts : List ℚ) (hvis : entry.isIntersecting = true)
    (hidx : indexOf sections entry.target = 3) (hlen : ts.length = 500)
    (hcol : s0.material.color = initialState.material.color)
    (hsize : s0.material.size = initialState.material.size) :
    |(runFrames msin ts (observer sections s0 [entry])).material.color.r
        - (Color.setHex 0xffae42).r| ≤ 1 / 10 ^ 9 ∧
      |(runFrames msin ts (observer sections s0 [entry])).material.color.g
        - (Color.setHex 0xffae42).g| ≤ 1 / 10 ^ 9 ∧
      |(runFrames msin ts (observer sections s0 [entry])).material.color.b
        - (Color.setHex 0xffae42).b| ≤ 1 / 10 ^ 9 ∧
      |(runFrames msin ts (observer sections s0 [entry])).material.size - 1 / 10|
        ≤ 1 / 10 ^ 9 := by
  have ht : themeAt (indexOf sections entry.target) = some
      { color := 0xffae42, map := .textureOrb, size := 1 / 10, drift := 0, rot := 1 / 1000 } := by
    rw [hidx]; rfl
  obtain ⟨h1, h2, h3, h4⟩ := runFrames_closed_form msin ts (observer sections s0 [entry])
  rw [h1, h2, h3, h4]
  rw [show observer sections s0 [entry] = observerEntry sections s0 entry from rfl,
    observerEntry_valid sections s0 entry _ hvis ht]
  rw [hlen]
  refine ⟨settle_bound _ _ ?_, settle_bound _ _ ?_, settle_bound _ _ ?_, settle_bound _ _ ?_⟩
  · norm_num [hcol, initialState, setHex_eq]
  · norm_num [hcol, initialState, setHex_eq, abs_le]
  · norm_num [hcol, initialState, setHex_eq, abs_le]
  · norm_num [hsize, initialState, abs_le]

/-! ## The claims -/

/-- C1: one intersecting visibility entry whose section index `i` lies in 0..4 leaves
`currentThemeIndex = i` and the targets equal to `themes[i]` (colour, size, drift). -/
theorem C1_observer_selects_theme (sections : List Elem) (s : State) (entry : Entry) (i : Int)
    (hvis : entry.isIntersecting = true) (hidx : indexOf sections entry.target = i)
    (h0 : 0 ≤ i) (h4 : i ≤ 4) :
    ∃ theme, themeAt i = some theme ∧
      (observer sections s [entry]).currentThemeIndex = i ∧
      (observer sections s [entry]).targetColor = Color.setHex theme.color ∧
      (observer sections s [entry]).targetSize = theme.size ∧
      (observer sections s [entry]).driftSpeedY = theme.drift := by
  obtain ⟨theme, ht⟩ := themeAt_defined h0 h4
  refine ⟨theme, ht, ?_⟩
  rw [← hidx] at ht
  rw [show observer sections s [entry] = observerEntry sections s entry from rfl,
    observerEntry_valid sections s entry theme hvis ht]
  exact ⟨hidx, rfl, rfl, rfl⟩

/-- C1 at section index 2 of a five-section page, from the initial state: the active
index becomes 2 and the targets are those of `themes[2]`. -/
theorem C1_observer_selects_theme_witness :
    ∃ theme, themeAt 2 = some theme ∧
      (observer [10, 11, 12, 13, 14] initialState [⟨true, 12⟩]).currentThemeIndex = 2 ∧
      (observer [10, 11, 12, 13, 14] initialState [⟨true, 12⟩]).targetColor
        = Color.setHex theme.color ∧
      (observer [10, 11, 12, 13, 14] initialState [⟨true, 12⟩]).targetSize = theme.size ∧
      (observer [10, 11, 12, 13, 14] initialState [⟨true, 12⟩]).driftSpeedY = theme.drift :=
  C1_observer_selects_theme [10, 11, 12, 13, 14] initialState ⟨true, 12⟩ 2 rfl (by decide)
    (by decide) (by decide)

/-- C2: an intersecting entry whose section index is out of range (`-1`, or `5` and
above) leaves the active index, the three targets and the material texture as they were. -/
theorem C2_observer_ignores_out_of_range (sections : List Elem) (s : State) (entry : Entry)
    (hvis : entry.isIntersecting = true)
    (hbad : 5 ≤ indexOf sections entry.target ∨ indexOf sections entry.target = -1) :
    (observer sections s [entry]).currentThemeIndex = s.currentThemeIndex ∧
      (observer sections s [entry]).targetColor = s.targetColor ∧
      (observer sections s [entry]).targetSize = s.targetSize ∧
      (observer sections s [entry]).driftSpeedY = s.driftSpeedY ∧
      (observer sections s [entry]).material.map = s.material.map := by
  rw [show observer sections s [entry] = observerEntry sections s entry from rfl,
    observerEntry_invalid sections s entry hvis hbad.symm]
  exact ⟨rfl, rfl, rfl, rfl, rfl⟩

/-- C2 on a six-section page (index 5) after theme 1 was selected. -/
theorem C2_observer_ignores_out_of_range_witness :
    (observer [10, 11, 12, 13, 14, 15] (observer [10, 11] initialState [⟨true, 11⟩])
        [⟨true, 15⟩]).currentThemeIndex
        = (observer [10, 11] initialState [⟨true, 11⟩]).currentThemeIndex ∧
      (observer [10, 11, 12, 13, 14, 15] (observer [10, 11] initialState [⟨true, 11⟩])
        [⟨true, 15⟩]).targetColor
        = (observer [10, 11] initialState [⟨true, 11⟩]).targetColor ∧
      (observer [10, 11, 12, 13, 14, 15] (observer [10, 11] initialState [⟨true, 11⟩])
        [⟨true, 15⟩]).targetSize
        = (observer [10, 11] initialState [⟨true, 11⟩]).targetSize ∧
      (observer [10, 11, 12, 13, 14, 15] (observer [10, 11] initialState [⟨true, 11⟩])
        [⟨true, 15⟩]).driftSpeedY
        = (observer [10, 11] initialState [⟨true, 11⟩]).driftSpeedY ∧
      (observer [10, 11, 12, 13, 14, 15] (observer [10, 11] initialState [⟨true, 11⟩])
        [⟨true, 15⟩]).material.map
        = (observer [10, 11] initialState [⟨true, 11⟩]).material.map :=
  C2_observer_ignores_out_of_range [10, 11, 12, 13, 14, 15]
    (observer [10, 11] initialState [⟨true, 11⟩]) ⟨true, 15⟩ rfl (Or.inl (by decide))

/-- C9: a pointer move at `(x, y)` sets the rotation about the x axis to `y * 0.00005`
and about the y axis to `x * 0.00005`, whatever it was before, and leaves the targets,
the active index, the position and the material unchanged. -/
theorem C9_mousemove_sets_rotation (s : State) (x y : ℚ) (hasCursor : Bool) :
    (mousemove x y hasCursor s).particlesMesh.rotationX = y * (5 / 100000) ∧
      (mousemove x y hasCursor s).particlesMesh.rotationY = x * (5 / 100000) ∧
      (mousemove x y hasCursor s).targetColor = s.targetColor ∧
      (mousemove x y hasCursor s).targetSize = s.targetSize ∧
      (mousemove x y hasCursor s).driftSpeedY = s.driftSpeedY ∧
      (mousemove x y hasCursor s).currentThemeIndex = s.currentThemeIndex ∧
      (mousemove x y hasCursor s).particlesMesh.positionX = s.particlesMesh.positionX ∧
      (mousemove x y hasCursor s).particlesMesh.positionY = s.particlesMesh.positionY ∧
      (mousemove x y hasCursor s).material = s.material := by
  cases hasCursor <;> exact ⟨rfl, rfl, rfl, rfl, rfl, rfl, rfl, rfl, rfl⟩

/-- C3: after `N` render-loop steps with no theme change, each colour channel and the
size equal `C - (C - C0) * 0.95 ^ N` for start value `C0` and target `C` (the targets
stay what they were); hence the distance to the target does not grow from one frame to
the next and tends to 0. -/
theorem C3_geometric_convergence (msin : ℚ → ℚ) (s : State) (ts : List ℚ) :
    ((runFrames msin ts s).material.color.r
        = s.targetColor.r - (s.targetColor.r - s.material.color.r) * (95 / 100) ^ ts.length ∧
      (runFrames msin ts s).material.color.g
        = s.targetColor.g - (s.targetColor.g - s.material.color.g) * (95 / 100) ^ ts.length ∧
      (runFrames msin ts s).material.color.b
        = s.targetColor.b - (s.targetColor.b - s.material.color.b) * (95 / 100) ^ ts.length ∧
      (runFrames msin ts s).material.size
        = s.targetSize - (s.targetSize - s.material.size) * (95 / 100) ^ ts.length) ∧
    ((runFrames msin ts s).targetColor = s.targetColor ∧
      (runFrames msin ts s).targetSize = s.targetSize) ∧
    (∀ t : ℚ, distanceToTarget (runFrames msin (ts ++ [t]) s)
        ≤ distanceToTarget (runFrames msin ts s)) ∧
    (∀ ε : ℚ, 0 < ε → ∃ N0 : Nat, ∀ us : List ℚ, N0 ≤ us.length →
        distanceToTarget (runFrames msin us s) < ε) := by
  refine ⟨runFrames_closed_form msin ts s,
    ⟨(runFrames_frame msin ts s).1, (runFrames_frame msin ts s).2.1⟩, ?_, ?_⟩
  · intro t
    rw [runFrames_append, runFrames_cons]
    show distanceToTarget (stateAfter (animate msin t (runFrames msin ts s))) ≤ _
    rw [animate_distance]
    have := distanceToTarget_nonneg (runFrames msin ts s)
    linarith
  · intro ε hε
    have hd0 := distanceToTarget_nonneg s
    have hd1 : 0 < distanceToTarget s + 1 := by linarith
    obtain ⟨n, hn⟩ := exists_pow_lt_of_lt_one (div_pos hε hd1) (by norm_num : (95 / 100 : ℚ) < 1)
    refine ⟨n, fun us hus => ?_⟩
    rw [runFrames_distance]
    have hq : (95 / 100 : ℚ) ^ us.length ≤ (95 / 100) ^ n :=
      pow_le_pow_of_le_one (by norm_num) (by norm_num) hus
    have hlt : distanceToTarget s * (ε / (distanceToTarget s + 1)) < ε := by
      rw [mul_div_assoc', div_lt_iff₀ hd1]
      nlinarith
    calc distanceToTarget s * (95 / 100) ^ us.length
        ≤ distanceToTarget s * (95 / 100) ^ n := mul_le_mul_of_nonneg_left hq hd0
      _ ≤ distanceToTarget s * (ε / (distanceToTarget s + 1)) :=
          mul_le_mul_of_nonneg_left hn.le hd0
      _ < ε := hlt

/-- C4: with `currentThemeIndex = 2`, one render-loop step at elapsed time `t` returns
and leaves the horizontal position at exactly `sin(t * 0.5) * 0.2`, whatever it was. -/
theorem C4_clouds_sway_overwrites (msin : ℚ → ℚ) (s : State) (t : ℚ)
    (h : s.currentThemeIndex = 2) :
    ∃ s', animate msin t s = .ok s' ∧
      s'.particlesMesh.positionX = msin (t * (5 / 10)) * (2 / 10) := by
  have ht : themeAt s.currentThemeIndex = some
      { color := 0xe0ffff, map := .textureCloud, size := 3 / 10, drift := -(5 / 100),
        rot := 1 / 10000 } := by
    rw [h]; rfl
  obtain ⟨s', hs', -, -, -, hx⟩ := animate_ok msin t s _ ht
  rw [if_pos h] at hx
  exact ⟨s', hs', hx⟩

/-- C4 at a state with theme 2 active and horizontal position 7, with the identity in
place of the sine and `t = 1`. -/
theorem C4_clouds_sway_overwrites_witness :
    ∃ s', animate (fun x => x) 1
        { initialState with
          currentThemeIndex := 2
          particlesMesh := { initialState.particlesMesh with positionX := 7 } } = .ok s' ∧
      s'.particlesMesh.positionX = (fun x : ℚ => x) (1 * (5 / 10)) * (2 / 10) :=
  C4_clouds_sway_overwrites (fun x => x) _ 1 rfl

/-- C5, as stated, fails on the program: the script runs one frame at load, under
theme 0, before any visibility entry can be handled, so on a five-section page the
entry for section 3 followed by 500 frames leaves the rotation about the vertical axis
at `0.5005`, not at `500 * themes[3].rot = 0.5`. -/
theorem C5_load_frame_counterexample :
    themeAt 3 = some
        { color := 0xffae42, map := .textureOrb, size := 1 / 10, drift := 0, rot := 1 / 1000 } ∧
      (runFrames (fun _ => 0) (List.replicate 500 0)
          (observer [10, 11, 12, 13, 14] (scriptLoaded (fun _ => 0) 0)
            [⟨true, 13⟩])).particlesMesh.rotationY = 1001 / 2000 ∧
      (runFrames (fun _ => 0) (List.replicate 500 0)
          (observer [10, 11, 12, 13, 14] (scriptLoaded (fun _ => 0) 0)
            [⟨true, 13⟩])).particlesMesh.rotationY ≠ 500 * (1 / 1000 : ℚ) := by
  have h := scroll_rotation [10, 11, 12, 13, 14] (fun _ => 0) (scriptLoaded (fun _ => 0) 0)
    ⟨true, 13⟩ (List.replicate 500 0) rfl (by decide) (List.length_replicate 500 0)
  rw [scriptLoaded_rotationY] at h
  refine ⟨rfl, ?_, ?_⟩
  · rw [h]; norm_num
  · rw [h]; norm_num

/-- C5, amended: from the state the script leaves at load (the initial state followed by
the frame that the top-level call `animate()` runs under theme 0), one intersecting
visibility entry for section index 3 followed by 500 render-loop steps leaves every
colour channel and the size within `10⁻⁹` of the values of `themes[3]`, and the rotation
about the vertical axis equal, in exact arithmetic, to
`themes[0].rot + 500 * themes[3].rot`. -/
theorem C5_load_scroll_then_500_frames (sections : List Elem) (msin : ℚ → ℚ) (entry : Entry)
    (t0 : ℚ) (ts : List ℚ) (hvis : entry.isIntersecting = true)
    (hidx : indexOf sections entry.target = 3) (hlen : ts.length = 500) :
    ∃ theme0 theme, themeAt 0 = some theme0 ∧ themeAt 3 = some theme ∧
      |(runFrames msin ts (observer sections (scriptLoaded msin t0) [entry])).material.color.r
          - (Color.setHex theme.color).r| ≤ 1 / 10 ^ 9 ∧
      |(runFrames msin ts (observer sections (scriptLoaded msin t0) [entry])).material.color.g
          - (Color.setHex theme.color).g| ≤ 1 / 10 ^ 9 ∧
      |(runFrames msin ts (observer sections (scriptLoaded msin t0) [entry])).material.color.b
          - (Color.setHex theme.color).b| ≤ 1 / 10 ^ 9 ∧
      |(runFrames msin ts (observer sections (scriptLoaded msin t0) [entry])).material.size
          - theme.size| ≤ 1 / 10 ^ 9 ∧
      (runFrames msin ts
          (observer sections (scriptLoaded msin t0) [entry])).particlesMesh.rotationY
        = theme0.rot + 500 * theme.rot := by
  obtain ⟨hr, hg, hb, hs⟩ := scroll_settles sections msin (scriptLoaded msin t0) entry ts
    hvis hidx hlen (congrArg PointsMaterial.color (scriptLoaded_material msin t0))
    (congrArg PointsMaterial.size (scriptLoaded_material msin t0))
  have hrot := scroll_rotation sections msin (scriptLoaded msin t0) entry ts hvis hidx hlen
  rw [scriptLoaded_rotationY] at hrot
  exact ⟨_, _, rfl, rfl, hr, hg, hb, hs, hrot⟩

/-- C5 (amended) on a five-section page, with the zero function in place of the sine and
every frame at elapsed time 0. -/
theorem C5_load_scroll_then_500_frames_witness :
    ∃ theme0 theme, themeAt 0 = some theme0 ∧ themeAt 3 = some theme ∧
      |(runFrames (fun _ => 0) (List.replicate 500 0)
          (observer [10, 11, 12, 13, 14] (scriptLoaded (fun _ => 0) 0)
            [⟨true, 13⟩])).material.color.r
          - (Color.setHex theme.color).r| ≤ 1 / 10 ^ 9 ∧
      |(runFrames (fun _ => 0) (List.replicate 500 0)
          (observer [10, 11, 12, 13, 14] (scriptLoaded (fun _ => 0) 0)
            [⟨true, 13⟩])).material.color.g
          - (Color.setHex theme.color).g| ≤ 1 / 10 ^ 9 ∧
      |(runFrames (fun _ => 0) (List.replicate 500 0)
          (observer [10, 11, 12, 13, 14] (scriptLoaded (fun _ => 0) 0)
            [⟨true, 13⟩])).material.color.b
          - (Color.setHex theme.color).b| ≤ 1 / 10 ^ 9 ∧
      |(runFrames (fun _ => 0) (List.replicate 500 0)
          (observer [10, 11, 12, 13, 14] (scriptLoaded (fun _ => 0) 0)
            [⟨true, 13⟩])).material.size
          - theme.size| ≤ 1 / 10 ^ 9 ∧
      (runFrames (fun _ => 0) (List.replicate 500 0)
          (observer [10, 11, 12, 13, 14] (scriptLoaded (fun _ => 0) 0)
            [⟨true, 13⟩])).particlesMesh.rotationY
        = theme0.rot + 500 * theme.rot :=
  C5_load_scroll_then_500_frames [10, 11, 12, 13, 14] (fun _ => 0) ⟨true, 13⟩ 0
    (List.replicate 500 0) rfl (by decide) (List.length_replicate 500 0)

/-- C6: in every state reachable from the initial state, `currentThemeIndex` lies in
`[0, 4]`, so `themes[currentThemeIndex]` is defined and every render-loop step returns;
render-loop steps and pointer moves leave the index unchanged. -/
theorem C6_active_index_in_range (sections : List Elem) (msin : ℚ → ℚ) (s : State)
    (hr : Reachable sections msin s) :
    (0 ≤ s.currentThemeIndex ∧ s.currentThemeIndex ≤ 4) ∧
      (∃ theme, themeAt s.currentThemeIndex = some theme) ∧
      (∀ t : ℚ, ∃ s', animate msin t s = .ok s') ∧
      (∀ t : ℚ, (step sections msin s (.frame t)).currentThemeIndex = s.currentThemeIndex) ∧
      (∀ (x y : ℚ) (c : Bool),
        (step sections msin s (.pointer x y c)).currentThemeIndex = s.currentThemeIndex) := by
  obtain ⟨events, rfl⟩ := hr
  have hinv := run_index sections msin initialState events ⟨le_refl 0, by decide⟩
  obtain ⟨theme, ht⟩ := themeAt_defined hinv.1 hinv.2
  refine ⟨hinv, ⟨theme, ht⟩, fun t => ?_, fun t => ?_, fun x y c => ?_⟩
  · obtain ⟨s', hs', -⟩ := animate_ok msin t _ theme ht
    exact ⟨s', hs'⟩
  · exact (animate_frame msin t _).2.2.2
  · exact mousemove_index x y c _

/-- C6 at the state reached on a five-section page by a visibility batch for section 3,
one frame and one pointer move. -/
theorem C6_active_index_in_range_witness :
    (0 ≤ (run [10, 11, 12, 13, 14] (fun _ => 0) initialState
          [.visibility [⟨true, 13⟩], .frame 0, .pointer 3 4 false]).currentThemeIndex ∧
        (run [10, 11, 12, 13, 14] (fun _ => 0) initialState
          [.visibility [⟨true, 13⟩], .frame 0, .pointer 3 4 false]).currentThemeIndex ≤ 4) ∧
      (∃ theme, themeAt (run [10, 11, 12, 13, 14] (fun _ => 0) initialState
          [.visibility [⟨true, 13⟩], .frame 0, .pointer 3 4 false]).currentThemeIndex
          = some theme) ∧
      (∀ t : ℚ, ∃ s', animate (fun _ => 0) t (run [10, 11, 12, 13, 14] (fun _ => 0) initialState
          [.visibility [⟨true, 13⟩], .frame 0, .pointer 3 4 false]) = .ok s') ∧
      (∀ t : ℚ, (step [10, 11, 12, 13, 14] (fun _ => 0)
          (run [10, 11, 12, 13, 14] (fun _ => 0) initialState
            [.visibility [⟨true, 13⟩], .frame 0, .pointer 3 4 false])
          (.frame t)).currentThemeIndex
        = (run [10, 11, 12, 13, 14] (fun _ => 0) initialState
          [.visibility [⟨true, 13⟩], .frame 0, .pointer 3 4 false]).currentThemeIndex) ∧
      (∀ (x y : ℚ) (c : Bool), (step [10, 11, 12, 13, 14] (fun _ => 0)
          (run [10, 11, 12, 13, 14] (fun _ => 0) initialState
            [.visibility [⟨true, 13⟩], .frame 0, .pointer 3 4 false])
          (.pointer x y c)).currentThemeIndex
        = (run [10, 11, 12, 13, 14] (fun _ => 0) initialState
          [.visibility [⟨true, 13⟩], .frame 0, .pointer 3 4 false]).currentThemeIndex) :=
  C6_active_index_in_range [10, 11, 12, 13, 14] (fun _ => 0) _
    ⟨[.visibility [⟨true, 13⟩], .frame 0, .pointer 3 4 false], rfl⟩

/-- C7: in the initial state the active index is 0 and the material colour, target
colour, material size, target size and texture are those of `themes[0]`, but the drift
speed `driftSpeedY` is `0.05`, which is not `themes[0].drift = 0.2`. -/
theorem C7_initial_state_drift_differs :
    ∃ theme, themeAt 0 = some theme ∧
      initialState.currentThemeIndex = 0 ∧
      initialState.material.color = Color.setHex theme.color ∧
      initialState.targetColor = Color.setHex theme.color ∧
      initialState.material.size = theme.size ∧
      initialState.targetSize = theme.size ∧
      initialState.material.map = theme.map ∧
      initialState.driftSpeedY = 5 / 100 ∧
      theme.drift = 2 / 10 ∧
      initialState.driftSpeedY ≠ theme.drift := by
  refine ⟨_, rfl, rfl, rfl, rfl, rfl, rfl, rfl, rfl, rfl, ?_⟩
  show (5 / 100 : ℚ) ≠ 2 / 10
  norm_num

/-- C8, as stated, fails: on a two-section page, the handler run from the initial state
on an intersecting entry for section 1 changes the material texture from the heart to
the star. -/
theorem C8_texture_changes_counterexample :
    indexOf [10, 11] 11 = 1 ∧
      initialState.material.map = .textureHeart ∧
      (observer [10, 11] initialState [⟨true, 11⟩]).material.map = .textureStar ∧
      (observer [10, 11] initialState [⟨true, 11⟩]).material.map
        ≠ initialState.material.map := by
  refine ⟨by decide, rfl, rfl, ?_⟩
  show Texture.textureStar ≠ Texture.textureHeart
  decide

/-- C8, amended: for a section index `i` in 0..4 the visibility handler leaves the
material colour and size as they were and sets the material texture to `themes[i].map`;
a pointer move leaves the whole material as it was and a render-loop step leaves the
texture as it was. -/
theorem C8_handler_keeps_color_and_size (sections : List Elem) (s : State) (entry : Entry)
    (i : Int) (hvis : entry.isIntersecting = true)
    (hidx : indexOf sections entry.target = i) (h0 : 0 ≤ i) (h4 : i ≤ 4) :
    ∃ theme, themeAt i = some theme ∧
      (observer sections s [entry]).material.color = s.material.color ∧
      (observer sections s [entry]).material.size = s.material.size ∧
      (observer sections s [entry]).material.map = theme.map ∧
      (∀ (x y : ℚ) (c : Bool), (mousemove x y c s).material = s.material) ∧
      (∀ (msin : ℚ → ℚ) (t : ℚ),
        (stateAfter (animate msin t s)).material.map = s.material.map) := by
  obtain ⟨theme, ht⟩ := themeAt_defined h0 h4
  refine ⟨theme, ht, ?_⟩
  rw [← hidx] at ht
  rw [show observer sections s [entry] = observerEntry sections s entry from rfl,
    observerEntry_valid sections s entry theme hvis ht]
  refine ⟨rfl, rfl, rfl, fun x y c => ?_, fun msin t => ?_⟩
  · cases c <;> rfl
  · rw [animate_material]

/-- C8 (amended) on a two-section page, at section index 1 from the initial state. -/
theorem C8_handler_keeps_color_and_size_witness :
    ∃ theme, themeAt 1 = some theme ∧
      (observer [10, 11] initialState [⟨true, 11⟩]).material.color
        = initialState.material.color ∧
      (observer [10, 11] initialState [⟨true, 11⟩]).material.size
        = initialState.material.size ∧
      (observer [10, 11] initialState [⟨true, 11⟩]).material.map = theme.map ∧
      (∀ (x y : ℚ) (c : Bool), (mousemove x y c initialState).material
        = initialState.material) ∧
      (∀ (msin : ℚ → ℚ) (t : ℚ),
        (stateAfter (animate msin t initialState)).material.map
          = initialState.material.map) :=
  C8_handler_keeps_color_and_size [10, 11] initialState ⟨true, 11⟩ 1 rfl (by decide)
    (by decide) (by decide)

/-- C10: after a batch of visibility entries the active index and the targets are those
of the last entry of the batch that is intersecting with a section index in 0..4;
entries that are not intersecting have no effect; with no such entry the index and the
targets are unchanged. -/
theorem C10_last_valid_entry_wins (sections : List Elem) (s : State) (entries : List Entry) :
    observer sections s entries
        = observer sections s (entries.filter fun e => e.isIntersecting) ∧
      match (entries.filter fun e => e.isIntersecting &&
          decide (0 ≤ indexOf sections e.target ∧ indexOf sections e.target ≤ 4)).getLast? with
      | none =>
        (observer sections s entries).currentThemeIndex = s.currentThemeIndex ∧
          (observer sections s entries).targetColor = s.targetColor ∧
          (observer sections s entries).targetSize = s.targetSize ∧
          (observer sections s entries).driftSpeedY = s.driftSpeedY
      | some e =>
        ∃ theme, themeAt (indexOf sections e.target) = some theme ∧
          (observer sections s entries).currentThemeIndex = indexOf sections e.target ∧
          (observer sections s entries).targetColor = Color.setHex theme.color ∧
          (observer sections s entries).targetSize = theme.size ∧
          (observer sections s entries).driftSpeedY = theme.drift := by
  refine ⟨observer_filter sections s entries, ?_⟩
  induction entries using List.reverseRecOn with
  | nil => exact ⟨rfl, rfl, rfl, rfl⟩
  | append_singleton es e ih =>
    rw [observer_append, List.filter_append]
    show match (_ ++ List.filter _ [e]).getLast? with
      | none => (observerEntry sections (observer sections s es) e).currentThemeIndex = _ ∧
          (observerEntry sections (observer sections s es) e).targetColor = _ ∧
          (observerEntry sections (observer sections s es) e).targetSize = _ ∧
          (observerEntry sections (observer sections s es) e).driftSpeedY = _
      | some e' => ∃ theme, themeAt (indexOf sections e'.target) = some theme ∧
          (observerEntry sections (observer sections s es) e).currentThemeIndex = _ ∧
          (observerEntry sections (observer sections s es) e).targetColor = _ ∧
          (observerEntry sections (observer sections s es) e).targetSize = _ ∧
          (observerEntry sections (observer sections s es) e).driftSpeedY = _
    cases hvis : e.isIntersecting with
    | false =>
      rw [List.filter_cons_of_neg (by simp [hvis]), List.filter_nil, List.append_nil,
        observerEntry_skip sections _ e hvis]
      exact ih
    | true =>
      by_cases hr : 0 ≤ indexOf sections e.target ∧ indexOf sections e.target ≤ 4
      · obtain ⟨theme, ht⟩ := themeAt_defined hr.1 hr.2
        rw [List.filter_cons_of_pos (by simp [hvis, hr]), List.filter_nil,
          List.getLast?_append_cons, List.getLast?_singleton,
          observerEntry_valid sections _ e theme hvis ht]
        exact ⟨theme, ht, rfl, rfl, rfl, rfl⟩
      · have hbad : indexOf sections e.target = -1 ∨ 5 ≤ indexOf sections e.target := by
          rcases indexOf_range sections e.target with h | h
          · exact Or.inl h
          · right; omega
        rw [List.filter_cons_of_neg (by simp [hvis, hr]), List.filter_nil, List.append_nil,
          observerEntry_invalid sections _ e hvis hbad]
        exact ih

end Mandm
